import Mathlib

/-!
Shallow embedding of the scene-composition worker (`src/worker.py`) of this
repository, together with theorems settling the frozen claims about it.

Conventions of the embedding:
* Python floats are modelled as rationals (`ℚ`); every constant involved in the
  claims (0.5, 0.2, 0.001, 1.2, 24) is exactly representable, and the sign and
  order comparisons the claims are about agree with IEEE double evaluation at
  these values.
* Dictionary lookups with defaults (`dict.get(key, default)`) are modelled as
  `Option` fields read through `Option.getD`.
* The ffmpeg filter chains that `process_job` builds as f-strings are modelled
  as a list of structured `FilterStage` values; each constructor's fields are
  exactly the values interpolated into the corresponding f-string of
  `worker.py` lines 72-98.  Semantics of the external encoder primitives the
  command invokes (zoompan expression evaluation, amix duration policy, the
  shortest-stream clamp) are modelled by separate, clearly named definitions.
* The control flow of `process_job` (try / except / finally, `sys.exit(1)` on
  error, unconditional `shutil.rmtree` cleanup) is modelled by an oracle-driven
  run function `runProcessJob`; the oracle decides the success of each external
  effect (S3 downloads, the encoder invocation, the upload, the S3 cleanup).
-/

/-- One scene of the job descriptor, as `process_job` reads it: the keys
`line` (worker.py line 59, default `''`) and `duration` (line 53, default
`1.0`) are optional.  The remaining keys (`image_url`, `audio_url`, `speaker`)
are consumed only by the asset-download stage, which the run model drives
through an oracle, so they are not carried here. -/
structure Scene where
  line : Option String
  duration : Option ℚ
deriving Repr, DecidableEq

/-- The job-wide caption settings dictionary (`worker.py` lines 50, 65-67):
keys `position`, `size`, `color`, all optional. -/
structure CaptionSettings where
  position : Option String
  size : Option ℕ
  color : Option String
deriving Repr, DecidableEq

/-- The job descriptor as `process_job` reads it (`worker.py` lines 19, 31,
41, 50). -/
structure Job where
  jobId : String
  scenes : List Scene
  captionSettings : CaptionSettings
  backgroundMusicUrl : Option String
deriving Repr, DecidableEq

/-- The ASCII single-quote character, the first target of the caption
sanitizer chain on `worker.py` line 60. -/
def squote : Char := Char.ofNat 39

/-- The typographic right single quotation mark (U+2019) that the sanitizer
substitutes for every ASCII single quote on `worker.py` line 60. -/
def rsquo : Char := Char.ofNat 8217

/-- Model of Python `str.replace` for a single-character target `t`:
occurrences are rewritten left to right and the replacement text is never
rescanned, exactly as `str.replace` behaves. -/
def replace1 (t : Char) (r : List Char) : List Char → List Char
  | [] => []
  | c :: cs => if c = t then r ++ replace1 t r cs else c :: replace1 t r cs

/-- The caption sanitizer of `worker.py` line 60, applied in source order:
`.replace("'", "’").replace(':', '\:').replace('%', '%%').replace(',', '\,')`.
It is a total pure function of the input character list, hence trivially
deterministic across repeated calls. -/
def sanitize (s : List Char) : List Char :=
  replace1 ',' ['\\', ',']
    (replace1 '%' ['%', '%']
      (replace1 ':' ['\\', ':']
        (replace1 squote [rsquo] s)))

/-- String-level wrapper of the sanitizer, as the value interpolated for
`{safe_caption}` in the drawtext filter (`worker.py` line 76). -/
def sanitizeStr (s : String) : String := String.mk (sanitize s.data)

/-- Single-character action of the sanitizer: what the four-stage replace
chain of line 60 does to one input character. -/
def sanitizeChar (c : Char) : List Char :=
  if c = squote then [rsquo]
  else if c = ':' then ['\\', ':']
  else if c = '%' then ['%', '%']
  else if c = ',' then ['\\', ',']
  else [c]

/-- Checker for the escaping contract of the filter-graph text argument: no
raw single quote survives, every colon and comma is preceded by a backslash,
and every percent sign is doubled. -/
def filterSafe : List Char → Bool
  | [] => true
  | [c] => !(c = squote || c = ':' || c = '%' || c = ',')
  | c :: d :: rest =>
    if c = '\\' && (d = ':' || d = ',') then filterSafe rest
    else if c = '%' && d = '%' then filterSafe rest
    else (!(c = squote || c = ':' || c = '%' || c = ',')) && filterSafe (d :: rest)

/-- Fixed frame rate of the pipeline (`worker.py` line 49). -/
def framerate : ℕ := 24

/-- Fixed fade length in seconds (`worker.py` line 61). -/
def fadeDuration : ℚ := 1/2

/-- The fade-out start offset exactly as `worker.py` line 75 computes it for
the `fade=out:st=...` filter: `duration - fade_duration`, with no clamping. -/
def fadeOutStart (duration : ℚ) : ℚ := duration - fadeDuration

/-- Scene duration as read on `worker.py` line 53: `scene.get('duration', 1.0)`. -/
def sceneDuration (s : Scene) : ℚ := s.duration.getD 1

/-- Caption text as read on `worker.py` line 59: `scene.get('line', '')`. -/
def dialogueText (s : Scene) : String := s.line.getD ""

/-- Python `int()` truncation toward zero, used for
`total_frames = int(duration * framerate)` on `worker.py` line 62. -/
def pyInt (q : ℚ) : ℤ := if q < 0 then ⌈q⌉ else ⌊q⌋

/-- `total_frames` of a scene (`worker.py` line 62). -/
def totalFrames (duration : ℚ) : ℤ := pyInt (duration * (framerate : ℚ))

/-- The vertical-position dictionary of `worker.py` line 63, as a lookup
returning `none` for unknown keys (Python `dict.get`). -/
def yPosMap (p : String) : Option String :=
  if p = "bottom" then some "(h-text_h)-20"
  else if p = "middle" then some "(h-text_h)/2"
  else if p = "top" then some "20"
  else none

/-- The selected drawtext `y` expression (`worker.py` line 65):
`y_pos_map.get(caption_settings.get('position', 'bottom'), "(h-text_h)-20")`. -/
def yPos (cs : CaptionSettings) : String :=
  (yPosMap (cs.position.getD "bottom")).getD "(h-text_h)-20"

/-- Font size as read on `worker.py` line 66: `caption_settings.get('size', 35)`. -/
def fontSize (cs : CaptionSettings) : ℕ := cs.size.getD 35

/-- Font color as read on `worker.py` line 67:
`caption_settings.get('color', '#FFFFFF')`. -/
def fontColor (cs : CaptionSettings) : String := cs.color.getD "#FFFFFF"

/-- One step of the zoompan zoom expression of `worker.py` line 74,
`z='min(zoom+0.001,1.2)'`: the variable `zoom` holds the previous frame's
zoom value (initially 1), so each frame applies this update once. -/
def zoomStep (z : ℚ) : ℚ := min (z + 1/1000) (6/5)

/-- The zoom value after `f` applications of the per-frame update, starting
from the zoompan initial zoom 1. -/
def zoomSeq : ℕ → ℚ
  | 0 => 1
  | f + 1 => zoomStep (zoomSeq f)

/-- The crop-window x expression of `worker.py` line 74,
`x='iw/2-(iw/zoom/2)'`, as a function of the input width and current zoom. -/
def cropX (iw z : ℚ) : ℚ := iw/2 - iw/z/2

/-- The crop-window y expression of `worker.py` line 74,
`y='ih/2-(ih/zoom/2)'`. -/
def cropY (ih z : ℚ) : ℚ := ih/2 - ih/z/2

/-- One entry of the `filter_chains` list built by `process_job`.  Each
constructor corresponds to one f-string of `worker.py`; its fields are the
values interpolated into that f-string.
* `videoTrim i d`: line 73, `[2i:v]trim=duration=d,setpts=PTS-STARTPTS[vi_trimmed]`.
* `videoZoom i n`: line 74, scale to 1280x720 then
  `zoompan=z='min(zoom+0.001,1.2)':d=n:x='iw/2-(iw/zoom/2)':y='ih/2-(ih/zoom/2)':s=1280x720`
  (the expressions are modelled by `zoomStep`, `cropX`, `cropY`).
* `videoFade i inSt inD outSt outD`: line 75, `fade=in:st=0:d=0.5,fade=out:st=outSt:d=outD`.
* `videoDrawtext i text size color x y box boxcolor boxborderw`: line 76.
* `audioSetpts i`: line 77, `[2i+1:a]asetpts=PTS-STARTPTS[ai]`.
* `videoConcat n` / `audioConcat n`: lines 81-82, `concat=n=...`.
* `bgVolume idx gain`: line 90, `[idx:a]volume=0.2[bga]`.
* `amix n policy`: line 91, `amix=inputs=2:duration=first` (no weights
  parameter, so the two inputs are mixed with equal weight). -/
inductive FilterStage where
  | videoTrim (i : ℕ) (duration : ℚ)
  | videoZoom (i : ℕ) (frames : ℤ)
  | videoFade (i : ℕ) (inStart inDur outStart outDur : ℚ)
  | videoDrawtext (i : ℕ) (text : String) (size : ℕ) (color : String)
      (x y : String) (box : Bool) (boxcolor : String) (boxborderw : ℕ)
  | audioSetpts (i : ℕ)
  | videoConcat (n : ℕ)
  | audioConcat (n : ℕ)
  | bgVolume (idx : ℕ) (gain : ℚ)
  | amix (n : ℕ) (durationPolicy : String)
deriving Repr, DecidableEq

/-- The five filter-chain entries that the loop body of `worker.py`
lines 52-79 appends for scene `i`. -/
def sceneChains (cs : CaptionSettings) (i : ℕ) (s : Scene) : List FilterStage :=
  [ FilterStage.videoTrim i (sceneDuration s),
    FilterStage.videoZoom i (totalFrames (sceneDuration s)),
    FilterStage.videoFade i 0 fadeDuration (fadeOutStart (sceneDuration s)) fadeDuration,
    FilterStage.videoDrawtext i (sanitizeStr (dialogueText s)) (fontSize cs) (fontColor cs)
      "(w-tw)/2" (yPos cs) true "black@0.5" 5,
    FilterStage.audioSetpts i ]

/-- Truthiness of `job_data.get('background_music_url')` on `worker.py`
line 41: present and non-empty. -/
def hasMusic (job : Job) : Bool :=
  match job.backgroundMusicUrl with
  | some u => u != ""
  | none => false

/-- The complete `filter_chains` list of `process_job`: per-scene chains in
scene order (lines 52-79), the two concat chains (lines 81-82), then, iff
background music was downloaded, the volume and amix chains (lines 87-91)
with the music input at index `len(scenes)*2` (line 89). -/
def filterChains (job : Job) : List FilterStage :=
  let base :=
    (job.scenes.enum.flatMap fun p => sceneChains job.captionSettings p.1 p.2)
    ++ [FilterStage.videoConcat job.scenes.length, FilterStage.audioConcat job.scenes.length]
  if hasMusic job then
    base ++ [FilterStage.bgVolume (job.scenes.length * 2) (1/5), FilterStage.amix 2 "first"]
  else base

/-- The job's input working directory (`worker.py` line 22). -/
def inputDir (jobId : String) : String := "./" ++ jobId ++ "_input"

/-- The job's output working directory (`worker.py` line 23). -/
def outputDir (jobId : String) : String := "./" ++ jobId ++ "_output"

/-- The encoder's output path (`worker.py` line 84):
`os.path.join(output_dir, "final_video.mp4")`. -/
def finalVideoPath (jobId : String) : String := outputDir jobId ++ "/final_video.mp4"

/-- The S3 object key of the final artifact (`worker.py` line 103). -/
def finalVideoKey (jobId : String) : String := "jobs/" ++ jobId ++ "/output/final_video.mp4"

/-- The first argument `process_job` passes to `s3.upload_file` on
`worker.py` line 104.  In boto3 that first argument is the LOCAL FILENAME to
read; the code passes `final_video_key` there, not `final_video_path`. -/
def uploadLocalFilename (jobId : String) : String := finalVideoKey jobId

/-- Oracle deciding the outcome of each external effect of one
`process_job` run: the S3 asset downloads (lines 32-44), the encoder
invocation `subprocess.run(..., check=True)` (line 100), the artifact upload
(line 104), and the temporary-S3-file cleanup (lines 107-113).  `true` means
the effect completes without raising. -/
structure Outcomes where
  downloadsOk : Bool
  ffmpegOk : Bool
  uploadOk : Bool
  s3CleanupOk : Bool
deriving Repr, DecidableEq

/-- Whether the try block performs any S3 download at all: the per-scene loop
(lines 32-38) downloads iff there are scenes, and lines 41-44 download iff
background music is requested. -/
def hasDownloads (job : Job) : Bool := !job.scenes.isEmpty || hasMusic job

/-- A download stage failure can only occur when a download is attempted. -/
def downloadsFail (job : Job) (o : Outcomes) : Bool :=
  hasDownloads job && !o.downloadsOk

/-- What the try block of `process_job` (lines 29-113) produced by the time it
finished or raised: how many times the encoder was invoked, which files the
encoder wrote, whether the upload call completed, and whether an exception
reached the except block (which then calls `sys.exit(1)`, line 121). -/
structure TryResult where
  invocations : ℕ
  encoderFiles : List String
  uploaded : Bool
  failed : Bool
deriving Repr, DecidableEq

/-- Sequential model of the try block: downloads, then one
`subprocess.run` encoder invocation, then the upload, then the S3 cleanup;
the first failing effect raises and skips everything after it. -/
def tryBody (job : Job) (o : Outcomes) : TryResult :=
  if downloadsFail job o then
    { invocations := 0, encoderFiles := [], uploaded := false, failed := true }
  else if !o.ffmpegOk then
    { invocations := 1, encoderFiles := [], uploaded := false, failed := true }
  else if !o.uploadOk then
    { invocations := 1, encoderFiles := [finalVideoPath job.jobId], uploaded := false, failed := true }
  else if !o.s3CleanupOk then
    { invocations := 1, encoderFiles := [finalVideoPath job.jobId], uploaded := true, failed := true }
  else
    { invocations := 1, encoderFiles := [finalVideoPath job.jobId], uploaded := true, failed := false }

/-- Model of `if os.path.exists(d): shutil.rmtree(d)` (lines 123-124) acting
on the existence flag of one directory. -/
def rmtreeIfExists (exists0 : Bool) : Bool := if exists0 then false else exists0

/-- Observable outcome of one `process_job` run. -/
structure RunTrace where
  inputDirExists : Bool
  outputDirExists : Bool
  encoderInvocations : ℕ
  encoderFiles : List String
  uploaded : Bool
  exitCode : ℕ
deriving Repr, DecidableEq

/-- One run of `process_job` (lines 18-125): `os.makedirs` creates both
working directories (lines 24-25), the try block runs until it finishes or
raises, the except block turns any exception into `sys.exit(1)` (line 121),
and the finally block (lines 122-124) removes whichever working directories
exist on every one of these paths. -/
def runProcessJob (job : Job) (o : Outcomes) : RunTrace :=
  let dirsMade := true
  let r := tryBody job o
  { inputDirExists := rmtreeIfExists dirsMade
    outputDirExists := rmtreeIfExists dirsMade
    encoderInvocations := r.invocations
    encoderFiles := r.encoderFiles
    uploaded := r.uploaded
    exitCode := if r.failed then 1 else 0 }

/-- Modelled encoder semantics: the output duration of
`amix=inputs=2:duration=first` (line 91) is the duration of its first input,
here the concatenated dialogue stream `[maina]`. -/
def amixOutLen (firstLen _otherLen : ℚ) : ℚ := firstLen

/-- Modelled encoder semantics: the `-shortest` output option (line 98) caps
the muxed output at the shorter of the mapped video and audio streams. -/
def outputLen (videoLen mixedLen : ℚ) : ℚ := min videoLen mixedLen

/-- Final artifact duration of a job with background music, per the modelled
encoder semantics: amix with policy `first` keeps the dialogue duration, and
`-shortest` then caps at the video stream's length. -/
def finalLenWithMusic (videoLen dialogueLen musicLen : ℚ) : ℚ :=
  outputLen videoLen (amixOutLen dialogueLen musicLen)

/-- Recognizer for per-scene trim stages, used to count them. -/
def isVideoTrim : FilterStage → Bool
  | FilterStage.videoTrim _ _ => true
  | _ => false

/-- Recognizer for video concat stages, used to count them. -/
def isVideoConcat : FilterStage → Bool
  | FilterStage.videoConcat _ => true
  | _ => false

/-- Oracle for a run where every external effect succeeds. -/
def oracleAllOk : Outcomes :=
  { downloadsOk := true, ffmpegOk := true, uploadOk := true, s3CleanupOk := true }

/-- Oracle for a run whose encoder invocation exits non-zero. -/
def oracleEncoderFails : Outcomes :=
  { downloadsOk := true, ffmpegOk := false, uploadOk := true, s3CleanupOk := true }

/-- A job with an empty scene list and no music, the malformed descriptor of
the configuration-error claim. -/
def jobEmpty : Job :=
  { jobId := "empty"
    scenes := []
    captionSettings := { position := none, size := none, color := none }
    backgroundMusicUrl := none }

/-- A two-scene job without background music. -/
def jobTwoScenes : Job :=
  { jobId := "demo"
    scenes := [ { line := some "Hello.", duration := some 3 },
                { line := some "World", duration := some 2 } ]
    captionSettings := { position := some "bottom", size := some 35, color := some "#FFFFFF" }
    backgroundMusicUrl := none }

/-- A one-scene job with a background-music asset. -/
def jobMusicDemo : Job :=
  { jobId := "m"
    scenes := [ { line := some "hi", duration := some 2 } ]
    captionSettings := { position := none, size := none, color := none }
    backgroundMusicUrl := some "bg.mp3" }

/-- Caption settings with every field present, for the caption-overlay claim. -/
def capSettingsDemo : CaptionSettings :=
  { position := some "top", size := some 42, color := some "#FF0000" }

/-- A scene with both optional fields present. -/
def sceneDemo : Scene := { line := some "hi", duration := some 2 }

/-- A scene with every optional field absent. -/
def sceneNoFields : Scene := { line := none, duration := none }

/-- Caption settings with every field absent. -/
def capNone : CaptionSettings := { position := none, size := none, color := none }

/-- Caption settings whose position key holds a value outside the mapping. -/
def capUnknownPos : CaptionSettings :=
  { position := some "center", size := none, color := none }

lemma replace1_append (t : Char) (r : List Char) (x y : List Char) :
    replace1 t r (x ++ y) = replace1 t r x ++ replace1 t r y := by
  induction x with
  | nil => rfl
  | cons c cs ih => by_cases h : c = t <;> simp [replace1, h, ih]

lemma sanitize_append (x y : List Char) :
    sanitize (x ++ y) = sanitize x ++ sanitize y := by
  simp [sanitize, replace1_append]

lemma sanitize_singleton (c : Char) : sanitize [c] = sanitizeChar c := by
  by_cases h1 : c = squote
  · subst h1; decide
  · by_cases h2 : c = ':'
    · subst h2; decide
    · by_cases h3 : c = '%'
      · subst h3; decide
      · by_cases h4 : c = ','
        · subst h4; decide
        · simp [sanitize, replace1, sanitizeChar, h1, h2, h3, h4]

lemma sanitize_cons (c : Char) (s : List Char) :
    sanitize (c :: s) = sanitizeChar c ++ sanitize s := by
  have h : c :: s = [c] ++ s := rfl
  rw [h, sanitize_append, sanitize_singleton]

lemma sanitizeChar_ne_nil (c : Char) : sanitizeChar c ≠ [] := by
  by_cases h1 : c = squote
  · subst h1; decide
  · by_cases h2 : c = ':'
    · subst h2; decide
    · by_cases h3 : c = '%'
      · subst h3; decide
      · by_cases h4 : c = ','
        · subst h4; decide
        · simp [sanitizeChar, h1, h2, h3, h4]

lemma sanitizeChar_head (c d : Char) (t : List Char) (h : sanitizeChar c = d :: t) :
    d ≠ ':' ∧ d ≠ ',' := by
  by_cases h1 : c = squote
  · rw [h1, show sanitizeChar squote = [rsquo] from by decide] at h
    injection h with h5 h6
    subst h5
    exact ⟨by decide, by decide⟩
  · by_cases h2 : c = ':'
    · rw [h2, show sanitizeChar ':' = ['\\', ':'] from by decide] at h
      injection h with h5 h6
      subst h5
      exact ⟨by decide, by decide⟩
    · by_cases h3 : c = '%'
      · rw [h3, show sanitizeChar '%' = ['%', '%'] from by decide] at h
        injection h with h5 h6
        subst h5
        exact ⟨by decide, by decide⟩
      · by_cases h4 : c = ','
        · rw [h4, show sanitizeChar ',' = ['\\', ','] from by decide] at h
          injection h with h5 h6
          subst h5
          exact ⟨by decide, by decide⟩
        · rw [show sanitizeChar c = [c] from by simp [sanitizeChar, h1, h2, h3, h4]] at h
          injection h with h5 h6
          subst h5
          exact ⟨h2, h4⟩

lemma sanitize_head (s : List Char) (d : Char) (t : List Char)
    (h : sanitize s = d :: t) : d ≠ ':' ∧ d ≠ ',' := by
  cases s with
  | nil => simp [sanitize, replace1] at h
  | cons c s' =>
    rw [sanitize_cons] at h
    cases hc : sanitizeChar c with
    | nil => exact absurd hc (sanitizeChar_ne_nil c)
    | cons d0 t0 =>
      rw [hc] at h
      injection h with h5 h6
      subst h5
      exact sanitizeChar_head c d0 t0 hc

lemma fs_rsquo (rest : List Char) : filterSafe (rsquo :: rest) = filterSafe rest := by
  cases rest with
  | nil => decide
  | cons d r => rfl

lemma fs_bslash_colon (rest : List Char) :
    filterSafe ('\\' :: ':' :: rest) = filterSafe rest := rfl

lemma fs_bslash_comma (rest : List Char) :
    filterSafe ('\\' :: ',' :: rest) = filterSafe rest := rfl

lemma fs_pct_pct (rest : List Char) :
    filterSafe ('%' :: '%' :: rest) = filterSafe rest := rfl

lemma fs_bslash (d : Char) (r : List Char) (hd1 : d ≠ ':') (hd2 : d ≠ ',') :
    filterSafe ('\\' :: d :: r) = filterSafe (d :: r) := by
  simp only [filterSafe]
  rw [decide_eq_false hd1, decide_eq_false hd2]
  rfl

lemma fs_other (c : Char) (h1 : c ≠ squote) (h2 : c ≠ ':') (h3 : c ≠ '%')
    (h4 : c ≠ ',') (h5 : c ≠ '\\') (rest : List Char) :
    filterSafe (c :: rest) = filterSafe rest := by
  cases rest with
  | nil => simp [filterSafe, h1, h2, h3, h4]
  | cons d r => simp [filterSafe, h1, h2, h3, h4, h5]

lemma zoomSeq_closed (f : ℕ) : zoomSeq f = min (1 + (f : ℚ)/1000) (6/5) := by
  induction f with
  | zero =>
    rw [show zoomSeq 0 = 1 from rfl]
    rw [min_eq_left (by norm_num)]
    norm_num
  | succ f ih =>
    rw [show zoomSeq (f + 1) = zoomStep (zoomSeq f) from rfl, zoomStep, ih,
      ← min_add_add_right, min_assoc,
      min_eq_right (show (6:ℚ)/5 ≤ 6/5 + 1/1000 by norm_num)]
    congr 1
    push_cast
    ring

lemma countP_trim_sceneChains (cs : CaptionSettings) (i : ℕ) (s : Scene) :
    (sceneChains cs i s).countP isVideoTrim = 1 := rfl

lemma countP_concat_sceneChains (cs : CaptionSettings) (i : ℕ) (s : Scene) :
    (sceneChains cs i s).countP isVideoConcat = 0 := rfl

lemma countP_trim_flat (cs : CaptionSettings) (l : List (ℕ × Scene)) :
    (l.flatMap fun p => sceneChains cs p.1 p.2).countP isVideoTrim = l.length := by
  induction l with
  | nil => rfl
  | cons p t ihp =>
    simp [List.flatMap_cons, List.countP_append, countP_trim_sceneChains, ihp]
    omega

lemma countP_concat_flat (cs : CaptionSettings) (l : List (ℕ × Scene)) :
    (l.flatMap fun p => sceneChains cs p.1 p.2).countP isVideoConcat = 0 := by
  induction l with
  | nil => rfl
  | cons p t ihp =>
    simp [List.flatMap_cons, List.countP_append, countP_concat_sceneChains, ihp]

lemma countP_trim_filterChains (job : Job) :
    (filterChains job).countP isVideoTrim = job.scenes.length := by
  unfold filterChains
  by_cases hM : hasMusic job <;>
    simp [hM, List.countP_append, countP_trim_flat, List.enum_length,
      List.countP_cons, isVideoTrim]

lemma countP_concat_filterChains (job : Job) :
    (filterChains job).countP isVideoConcat = 1 := by
  unfold filterChains
  by_cases hM : hasMusic job <;>
    simp [hM, List.countP_append, countP_concat_flat, List.enum_length,
      List.countP_cons, isVideoConcat]

lemma videoConcat_mem_filterChains (job : Job) :
    FilterStage.videoConcat job.scenes.length ∈ filterChains job := by
  unfold filterChains
  by_cases hM : hasMusic job <;> simp [hM, List.mem_append]

lemma inputDir_ne_outputDir (jid : String) : inputDir jid ≠ outputDir jid := by
  intro h
  have h2 := congrArg String.length h
  simp [inputDir, outputDir, String.length_append] at h2
  exact absurd h2 (by decide)

/-- Claim C1 (code bug).  The claim states that the fade-out start offset is
clamped to `max(0, duration - 0.5)`.  The code (`worker.py` line 75) emits
`fade=out:st={duration - fade_duration}` with no clamp, so for a scene with
`duration = 0.4` the fade filter of that scene carries the negative start
offset `-0.1`, violating the claimed non-negativity. -/
theorem C1_fade_start_unclamped :
    fadeOutStart (2/5) = -(1/10) ∧
    fadeOutStart (2/5) < 0 ∧
    FilterStage.videoFade 0 0 fadeDuration (fadeOutStart (2/5)) fadeDuration ∈
      sceneChains capNone 0 { line := none, duration := some (2/5) } := by
  refine ⟨by norm_num [fadeOutStart, fadeDuration], by norm_num [fadeOutStart, fadeDuration], ?_⟩
  have h : sceneDuration { line := none, duration := some (2/5) } = 2/5 := rfl
  simp [sceneChains, h]

/-- Claim C2 (confirmed).  The caption sanitizer is total and deterministic by
construction (a pure function of the input characters); the empty string maps
to the empty string; and on every input the output passes the escaping
contract `filterSafe`: no raw single quote survives (each is substituted with
a typographic apostrophe), every colon and comma is backslash-escaped, and
every percent sign is doubled, so the result is safe to embed in the
filter-graph text argument. -/
theorem C2_sanitizer_total_safe :
    (∀ s : List Char, filterSafe (sanitize s) = true) ∧ sanitize [] = [] := by
  constructor
  · intro s
    induction s with
    | nil => rfl
    | cons c s' ih =>
      rw [sanitize_cons]
      by_cases h1 : c = squote
      · subst h1
        rw [show sanitizeChar squote = [rsquo] from by decide, List.singleton_append, fs_rsquo]
        exact ih
      · by_cases h2 : c = ':'
        · subst h2
          rw [show sanitizeChar ':' = ['\\', ':'] from by decide, List.cons_append,
            List.singleton_append, fs_bslash_colon]
          exact ih
        · by_cases h3 : c = '%'
          · subst h3
            rw [show sanitizeChar '%' = ['%', '%'] from by decide, List.cons_append,
              List.singleton_append, fs_pct_pct]
            exact ih
          · by_cases h4 : c = ','
            · subst h4
              rw [show sanitizeChar ',' = ['\\', ','] from by decide, List.cons_append,
                List.singleton_append, fs_bslash_comma]
              exact ih
            · by_cases h5 : c = '\\'
              · subst h5
                rw [show sanitizeChar '\\' = ['\\'] from by decide, List.singleton_append]
                cases hs : sanitize s' with
                | nil => decide
                | cons d t =>
                  have hd := sanitize_head s' d t hs
                  rw [fs_bslash d t hd.1 hd.2, ← hs]
                  exact ih
              · rw [show sanitizeChar c = [c] from by simp [sanitizeChar, h1, h2, h3, h4],
                  List.singleton_append, fs_other c h1 h2 h3 h4 h5]
                exact ih
  · rfl

/-- Claim C3 (confirmed).  When a background-music asset is present, the
filter graph contains the attenuation chain `volume=0.2` on the music input
at index `len(scenes)*2` and an `amix=inputs=2:duration=first` chain with no
weights parameter (equal-weight mix); under the modelled encoder semantics
(amix policy `first` keeps the dialogue duration, `-shortest` then caps at
the video stream), a job whose music is at least as long as the dialogue and
whose video stream matches the dialogue length yields a final duration equal
to the total dialogue duration. -/
theorem C3_music_mix (job : Job) (u : String) (videoLen dialogueLen musicLen : ℚ)
    (hm : job.backgroundMusicUrl = some u) (hu : u ≠ "")
    (hvideo : videoLen = dialogueLen) (_hmusic : dialogueLen ≤ musicLen) :
    FilterStage.bgVolume (job.scenes.length * 2) (1/5) ∈ filterChains job ∧
    FilterStage.amix 2 "first" ∈ filterChains job ∧
    finalLenWithMusic videoLen dialogueLen musicLen = dialogueLen := by
  have hM : hasMusic job = true := by
    unfold hasMusic
    rw [hm]
    simpa using hu
  refine ⟨?_, ?_, ?_⟩
  · unfold filterChains
    simp [hM, List.mem_append]
  · unfold filterChains
    simp [hM, List.mem_append]
  · simp [finalLenWithMusic, outputLen, amixOutLen, hvideo]

/-- Witness for C3 at a concrete job with music and at concrete lengths. -/
theorem C3_music_mix_witness :
    FilterStage.bgVolume (jobMusicDemo.scenes.length * 2) (1/5) ∈ filterChains jobMusicDemo ∧
    FilterStage.amix 2 "first" ∈ filterChains jobMusicDemo ∧
    finalLenWithMusic 5 5 7 = 5 :=
  C3_music_mix jobMusicDemo "bg.mp3" 5 5 7 rfl (by decide) rfl (by norm_num)

/-- Claim C4 (confirmed).  Whatever the oracle decides for every external
effect — downloads, the encoder invocation, the upload, the S3 cleanup — the
finally block removes both working directories, so neither exists when the
run ends, on the success path and on every failure path alike. -/
theorem C4_cleanup_unconditional (job : Job) (o : Outcomes) :
    (runProcessJob job o).inputDirExists = false ∧
    (runProcessJob job o).outputDirExists = false :=
  ⟨rfl, rfl⟩

/-- Claim C5 (corrected), counterexample.  The claim states that a job with an
empty scene list fails before any rendering starts, with no encoder
invocation.  In the code there is no validation: with zero scenes the loop
body never runs, the degenerate chain `concat=n=0` is still emitted, and
`subprocess.run` is still called once (here with the encoder exiting
non-zero, as ffmpeg does on such a graph), so an encoder invocation does
occur. -/
theorem C5_no_validation_counterexample :
    (runProcessJob jobEmpty oracleEncoderFails).encoderInvocations = 1 ∧
    FilterStage.videoConcat 0 ∈ filterChains jobEmpty ∧
    (runProcessJob jobEmpty oracleEncoderFails).uploaded = false ∧
    (runProcessJob jobEmpty oracleEncoderFails).exitCode = 1 := by
  refine ⟨rfl, by decide, rfl, rfl⟩

/-- Claim C5 (corrected), amended: a job with an empty scene list is not
rejected up front — the filter graph contains a degenerate zero-input concat
chain and the encoder is invoked exactly once regardless of the oracle; the
job uploads no artifact and cannot report success unless that encoder
invocation succeeds. -/
theorem C5_empty_scenes_run (job : Job) (o : Outcomes)
    (hs : job.scenes = []) (hm : job.backgroundMusicUrl = none) :
    FilterStage.videoConcat 0 ∈ filterChains job ∧
    (runProcessJob job o).encoderInvocations = 1 ∧
    ((runProcessJob job o).uploaded = true → o.ffmpegOk = true) ∧
    ((runProcessJob job o).exitCode = 0 → o.ffmpegOk = true) := by
  have hMu : hasMusic job = false := by
    unfold hasMusic
    rw [hm]
  have hdl : downloadsFail job o = false := by
    simp [downloadsFail, hasDownloads, hs, hMu]
  obtain ⟨dok, fok, uok, cok⟩ := o
  refine ⟨?_, ?_, ?_, ?_⟩
  · unfold filterChains
    simp [hMu, hs]
  · cases fok <;> cases uok <;> cases cok <;> simp [runProcessJob, tryBody, hdl]
  · cases fok <;> cases uok <;> cases cok <;> simp [runProcessJob, tryBody, hdl]
  · cases fok <;> cases uok <;> cases cok <;> simp [runProcessJob, tryBody, hdl]

/-- Witness for the amended C5 at the concrete empty-scene job with an
all-success oracle. -/
theorem C5_empty_scenes_run_witness :
    FilterStage.videoConcat 0 ∈ filterChains jobEmpty ∧
    (runProcessJob jobEmpty oracleAllOk).encoderInvocations = 1 ∧
    ((runProcessJob jobEmpty oracleAllOk).uploaded = true → oracleAllOk.ffmpegOk = true) ∧
    ((runProcessJob jobEmpty oracleAllOk).exitCode = 0 → oracleAllOk.ffmpegOk = true) :=
  C5_empty_scenes_run jobEmpty oracleAllOk rfl rfl

/-- Claim C6 (confirmed).  For every frame index below `duration*framerate`,
the zoom value of the zoompan expression equals
`min(1 + f*0.001, 1.2)`, is non-decreasing in the frame index, and never
exceeds 1.2; and the crop expressions recenter the window every frame:
the window origin equals `(iw - iw/zoom)/2` horizontally and
`(ih - ih/zoom)/2` vertically. -/
theorem C6_zoom_monotone_bounded (d : ℚ) (f : ℕ) (iw ihh z : ℚ)
    (_hf : (f : ℚ) < d * (framerate : ℚ)) :
    zoomSeq f = min (1 + (f : ℚ) * (1/1000)) (6/5) ∧
    zoomSeq f ≤ zoomSeq (f + 1) ∧
    zoomSeq f ≤ 6/5 ∧
    cropX iw z = (iw - iw/z)/2 ∧
    cropY ihh z = (ihh - ihh/z)/2 := by
  refine ⟨?_, ?_, ?_, by unfold cropX; ring, by unfold cropY; ring⟩
  · rw [zoomSeq_closed]
    congr 1
    ring
  · rw [zoomSeq_closed, zoomSeq_closed]
    apply min_le_min _ le_rfl
    push_cast
    linarith
  · rw [zoomSeq_closed]
    exact min_le_right _ _

/-- Witness for C6 at frame 2 of a one-second scene on the 1280x720 canvas. -/
theorem C6_zoom_monotone_bounded_witness :
    zoomSeq 2 = min (1 + ((2 : ℕ) : ℚ) * (1/1000)) (6/5) ∧
    zoomSeq 2 ≤ zoomSeq (2 + 1) ∧
    zoomSeq 2 ≤ 6/5 ∧
    cropX 1280 (6/5) = (1280 - 1280/(6/5))/2 ∧
    cropY 720 (6/5) = (720 - 720/(6/5))/2 :=
  C6_zoom_monotone_bounded 1 2 1280 720 (6/5) (by norm_num [framerate])

/-- Claim C7 (confirmed).  Every scene's drawtext chain centers the text
horizontally (`x=(w-tw)/2`), selects the vertical position from the job-wide
settings by the fixed mapping top, middle, bottom, draws over the
semi-transparent box `black@0.5`, and carries the settings' size and color
values verbatim — the same parameters for every scene index and scene. -/
theorem C7_caption_overlay (cs : CaptionSettings) (i : ℕ) (s : Scene) (n : ℕ) (c : String)
    (hn : cs.size = some n) (hc : cs.color = some c) :
    FilterStage.videoDrawtext i (sanitizeStr (dialogueText s)) n c
      "(w-tw)/2" (yPos cs) true "black@0.5" 5 ∈ sceneChains cs i s ∧
    (cs.position = some "top" → yPos cs = "20") ∧
    (cs.position = some "middle" → yPos cs = "(h-text_h)/2") ∧
    (cs.position = some "bottom" → yPos cs = "(h-text_h)-20") := by
  refine ⟨?_, ?_, ?_, ?_⟩
  · have h1 : fontSize cs = n := by simp [fontSize, hn]
    have h2 : fontColor cs = c := by simp [fontColor, hc]
    rw [← h1, ← h2]
    simp [sceneChains]
  · intro hp
    unfold yPos
    rw [hp]
    rfl
  · intro hp
    unfold yPos
    rw [hp]
    rfl
  · intro hp
    unfold yPos
    rw [hp]
    rfl

/-- Witness for C7 at concrete settings with position top, size 42 and color
a concrete hex value. -/
theorem C7_caption_overlay_witness :
    FilterStage.videoDrawtext 1 (sanitizeStr (dialogueText sceneDemo)) 42 "#FF0000"
      "(w-tw)/2" (yPos capSettingsDemo) true "black@0.5" 5 ∈
      sceneChains capSettingsDemo 1 sceneDemo ∧
    (capSettingsDemo.position = some "top" → yPos capSettingsDemo = "20") ∧
    (capSettingsDemo.position = some "middle" → yPos capSettingsDemo = "(h-text_h)/2") ∧
    (capSettingsDemo.position = some "bottom" → yPos capSettingsDemo = "(h-text_h)-20") :=
  C7_caption_overlay capSettingsDemo 1 sceneDemo 42 "#FF0000" rfl rfl

/-- Claim C8 (code bug).  The claim states that the file handed to storage
under the key `jobs/{job_id}/output/final_video.mp4` is the encoder's output
at the pipeline's output path.  The call on `worker.py` line 104 passes
`final_video_key` as the first argument of `s3.upload_file` — the local
filename to read — instead of `final_video_path`, so for the job id `j1` the
upload reads `jobs/j1/output/final_video.mp4`, which differs from the
encoder's output path `./j1_output/final_video.mp4`. -/
theorem C8_upload_reads_wrong_local_path :
    uploadLocalFilename "j1" = "jobs/j1/output/final_video.mp4" ∧
    finalVideoPath "j1" = "./j1_output/final_video.mp4" ∧
    uploadLocalFilename "j1" ≠ finalVideoPath "j1" := by
  refine ⟨rfl, rfl, by decide⟩

/-- Claim C9 (corrected), counterexample.  The claim states that a job with N
scenes writes one intermediate clip file per scene (N files) before a
separate concatenation.  For the concrete two-scene job, the pipeline invokes
the encoder exactly once and that invocation writes exactly one file — the
final video — so the number of files written is not the scene count. -/
theorem C9_no_intermediate_clips_counterexample :
    (runProcessJob jobTwoScenes oracleAllOk).encoderInvocations = 1 ∧
    (runProcessJob jobTwoScenes oracleAllOk).encoderFiles = [finalVideoPath "demo"] ∧
    jobTwoScenes.scenes.length = 2 ∧
    (runProcessJob jobTwoScenes oracleAllOk).encoderFiles.length ≠ jobTwoScenes.scenes.length :=
  ⟨rfl, rfl, rfl, by decide⟩

/-- Claim C9 (corrected), amended: the pipeline performs rendering,
concatenation and mixing in a single encoder invocation whose filter graph
contains one per-scene chain block per scene (counted by its trim stage) and
exactly one video concat of all N scene streams; the encoder writes exactly
one file, the final video inside the job's output directory, which is a
different directory from the input-asset directory. -/
theorem C9_single_invocation_graph (job : Job) (o : Outcomes)
    (hdl : downloadsFail job o = false) (hff : o.ffmpegOk = true) :
    (runProcessJob job o).encoderInvocations = 1 ∧
    (runProcessJob job o).encoderFiles = [finalVideoPath job.jobId] ∧
    (filterChains job).countP isVideoTrim = job.scenes.length ∧
    (filterChains job).countP isVideoConcat = 1 ∧
    FilterStage.videoConcat job.scenes.length ∈ filterChains job ∧
    inputDir job.jobId ≠ outputDir job.jobId := by
  obtain ⟨dok, fok, uok, cok⟩ := o
  have h1 : (runProcessJob job ⟨dok, fok, uok, cok⟩).encoderInvocations = 1 ∧
      (runProcessJob job ⟨dok, fok, uok, cok⟩).encoderFiles = [finalVideoPath job.jobId] := by
    cases fok
    · simp at hff
    · cases uok <;> cases cok <;>
        exact ⟨by simp [runProcessJob, tryBody, hdl], by simp [runProcessJob, tryBody, hdl]⟩
  exact ⟨h1.1, h1.2, countP_trim_filterChains job, countP_concat_filterChains job,
    videoConcat_mem_filterChains job, inputDir_ne_outputDir job.jobId⟩

/-- Witness for the amended C9 at the concrete two-scene job. -/
theorem C9_single_invocation_graph_witness :
    (runProcessJob jobTwoScenes oracleAllOk).encoderInvocations = 1 ∧
    (runProcessJob jobTwoScenes oracleAllOk).encoderFiles = [finalVideoPath jobTwoScenes.jobId] ∧
    (filterChains jobTwoScenes).countP isVideoTrim = jobTwoScenes.scenes.length ∧
    (filterChains jobTwoScenes).countP isVideoConcat = 1 ∧
    FilterStage.videoConcat jobTwoScenes.scenes.length ∈ filterChains jobTwoScenes ∧
    inputDir jobTwoScenes.jobId ≠ outputDir jobTwoScenes.jobId :=
  C9_single_invocation_graph jobTwoScenes oracleAllOk rfl rfl

/-- Claim C10 (confirmed).  Absent fields are silently defaulted: a missing
duration renders as 1.0 seconds (and the trim stage carries that value), a
missing line yields the empty caption, a missing or unrecognized caption
position selects the bottom mapping, a missing size defaults to 35, and a
missing color defaults to the hex value FFFFFF. -/
theorem C10_silent_defaults (s : Scene) (cs csu : CaptionSettings)
    (hd : s.duration = none) (hl : s.line = none)
    (hp : cs.position = none) (hsz : cs.size = none) (hcol : cs.color = none)
    (hpu : csu.position = some "center") :
    sceneDuration s = 1 ∧ dialogueText s = "" ∧ yPos cs = "(h-text_h)-20" ∧
    fontSize cs = 35 ∧ fontColor cs = "#FFFFFF" ∧ yPos csu = "(h-text_h)-20" ∧
    FilterStage.videoTrim 0 1 ∈ sceneChains cs 0 s := by
  have hdur : sceneDuration s = 1 := by simp [sceneDuration, hd]
  refine ⟨hdur, by simp [dialogueText, hl], ?_, by simp [fontSize, hsz],
    by simp [fontColor, hcol], ?_, ?_⟩
  · unfold yPos
    rw [hp]
    rfl
  · unfold yPos
    rw [hpu]
    rfl
  · have hmem : FilterStage.videoTrim 0 (sceneDuration s) ∈ sceneChains cs 0 s := by
      simp [sceneChains]
    rwa [hdur] at hmem

/-- Witness for C10 at a concrete scene and settings with every field absent,
plus settings with an unrecognized position value. -/
theorem C10_silent_defaults_witness :
    sceneDuration sceneNoFields = 1 ∧ dialogueText sceneNoFields = "" ∧
    yPos capNone = "(h-text_h)-20" ∧ fontSize capNone = 35 ∧
    fontColor capNone = "#FFFFFF" ∧ yPos capUnknownPos = "(h-text_h)-20" ∧
    FilterStage.videoTrim 0 1 ∈ sceneChains capNone 0 sceneNoFields :=
  C10_silent_defaults sceneNoFields capNone capUnknownPos rfl rfl rfl rfl rfl rfl
